import Mathlib

/-!
Shallow embedding of `gameplay/src/PhysicsController.cpp` (namespace `gameplay`).

Scalars (`float`, `btScalar`) are modelled as `ℚ`; `long` as `ℤ`.  Heap objects
that the controller only owns and never inspects (the collision configuration,
dispatcher, broadphase pair cache and solver) are modelled as `Option Unit`
references: `some ()` for a live pointer, `none` for `NULL`.  Operations that
dereference the `_world` pointer return an `Outcome` that is `nullDeref` when
`_world` is `NULL`, mirroring the undefined behaviour of the C++ code there.
Destruction (`delete`) has no heap to act on in the embedding, so `finalize`
additionally returns the ordered list of teardown events it performs, which is
the instrumented destruction-order log the spec appeals to.
-/

namespace Gameplay

/-- Model of `gameplay::Vector3`: three scalar components. -/
structure Vector3 where
  x : ℚ
  y : ℚ
  z : ℚ

/-- Model of `gameplay::Quaternion`: four scalar components. -/
structure Quaternion where
  x : ℚ
  y : ℚ
  z : ℚ
  w : ℚ

/-- Model of a collision shape (`btCollisionShape`): the controller creates
only box shapes (from a half-extent vector) and sphere shapes (from a radius). -/
inductive CollisionShape where
  | box (halfExtents : Vector3)
  | sphere (radius : ℚ)

/-- Opaque rigid-body handle (`PhysicsRigidBody*` is an external collaborator). -/
structure PhysicsRigidBody where
  id : ℕ

/-- Model of a collision object registered in the world (`btCollisionObject`).
Nothing in PhysicsController.cpp adds collision objects, but `finalize()` tears
them down, so the model keeps the two flags that loop inspects. -/
structure CollisionObject where
  id : ℕ
  isRigidBody : Bool
  hasMotionState : Bool

/-- The five constraint kinds created by the controller. -/
inductive ConstraintKind where
  | fixed
  | generic
  | hinge
  | socket
  | spring

/-- Model of a native `btTypedConstraint`: the typed constraint value built from
the two bodies and their per-side offset transforms.  Socket constraints carry
no rotation offsets, hence the `Option Quaternion` fields. -/
structure TypedConstraint where
  kind : ConstraintKind
  a : PhysicsRigidBody
  rotationOffsetA : Option Quaternion
  translationOffsetA : Vector3
  b : PhysicsRigidBody
  rotationOffsetB : Option Quaternion
  translationOffsetB : Vector3

/-- Model of a `PhysicsConstraint` wrapper object: the controller-level
bookkeeping object whose `_constraint` member is the native constraint. -/
structure PhysicsConstraint where
  constraint : TypedConstraint

/-- Modelled from the spec: the `PhysicsFixedConstraint` constructor is declared
in a header that is not under src/; per the spec it "constructs the typed
constraint value from the two bodies and their per-side offset transforms". -/
def PhysicsFixedConstraint (a : PhysicsRigidBody) (rotationOffsetA : Quaternion)
    (translationOffsetA : Vector3) (b : PhysicsRigidBody) (rotationOffsetB : Quaternion)
    (translationOffsetB : Vector3) : PhysicsConstraint :=
  ⟨⟨.fixed, a, some rotationOffsetA, translationOffsetA, b, some rotationOffsetB,
    translationOffsetB⟩⟩

/-- Modelled from the spec: the `PhysicsGenericConstraint` constructor (header
not under src/) builds the typed constraint from bodies and offsets. -/
def PhysicsGenericConstraint (a : PhysicsRigidBody) (rotationOffsetA : Quaternion)
    (translationOffsetA : Vector3) (b : PhysicsRigidBody) (rotationOffsetB : Quaternion)
    (translationOffsetB : Vector3) : PhysicsConstraint :=
  ⟨⟨.generic, a, some rotationOffsetA, translationOffsetA, b, some rotationOffsetB,
    translationOffsetB⟩⟩

/-- Modelled from the spec: the `PhysicsHingeConstraint` constructor (header
not under src/) builds the typed constraint from bodies and offsets. -/
def PhysicsHingeConstraint (a : PhysicsRigidBody) (rotationOffsetA : Quaternion)
    (translationOffsetA : Vector3) (b : PhysicsRigidBody) (rotationOffsetB : Quaternion)
    (translationOffsetB : Vector3) : PhysicsConstraint :=
  ⟨⟨.hinge, a, some rotationOffsetA, translationOffsetA, b, some rotationOffsetB,
    translationOffsetB⟩⟩

/-- Modelled from the spec: the `PhysicsSocketConstraint` constructor (header
not under src/) builds the typed constraint from the two bodies and their
translation offsets only — socket constraints carry no rotation offsets. -/
def PhysicsSocketConstraint (a : PhysicsRigidBody) (translationOffsetA : Vector3)
    (b : PhysicsRigidBody) (translationOffsetB : Vector3) : PhysicsConstraint :=
  ⟨⟨.socket, a, none, translationOffsetA, b, none, translationOffsetB⟩⟩

/-- Modelled from the spec: the `PhysicsSpringConstraint` constructor (header
not under src/) builds the typed constraint from bodies and offsets. -/
def PhysicsSpringConstraint (a : PhysicsRigidBody) (rotationOffsetA : Quaternion)
    (translationOffsetA : Vector3) (b : PhysicsRigidBody) (rotationOffsetB : Quaternion)
    (translationOffsetB : Vector3) : PhysicsConstraint :=
  ⟨⟨.spring, a, some rotationOffsetA, translationOffsetA, b, some rotationOffsetB,
    translationOffsetB⟩⟩

/-- Bullet's default fixed sub-step of `stepSimulation`, 1/60 of a second. -/
def fixedTimeStep : ℚ := 1 / 60

/-- Model of the `btDiscreteDynamicsWorld`: gravity, the ordered constraint
array (index 0 = first added), the ordered collision-object array, the total
simulated time requested so far, and the log of sub-step counts performed by
each `stepSimulation` call. -/
structure DynamicsWorld where
  gravity : Vector3
  constraints : List TypedConstraint
  collisionObjects : List CollisionObject
  time : ℚ
  stepCounts : List ℕ

/-- Model of `btDynamicsWorld::setGravity`. -/
def DynamicsWorld.setGravity (w : DynamicsWorld) (g : Vector3) : DynamicsWorld :=
  { w with gravity := g }

/-- Model of `btDynamicsWorld::addConstraint`: appends to the constraint array. -/
def DynamicsWorld.addConstraint (w : DynamicsWorld) (c : TypedConstraint) : DynamicsWorld :=
  { w with constraints := w.constraints ++ [c] }

/-- Modelled from the spec: `btDynamicsWorld::stepSimulation` belongs to the
dynamics engine, which is an external collaborator consumed as an opaque
capability.  Per the spec it advances the world by the given time and performs
`⌈elapsed / sub-step⌉` discrete fixed sub-steps, capped at `maxSubSteps`. -/
def DynamicsWorld.stepSimulation (w : DynamicsWorld) (timeStep : ℚ) (maxSubSteps : ℕ) :
    DynamicsWorld :=
  { w with
    time := w.time + timeStep
    stepCounts := w.stepCounts ++ [min ⌈timeStep / fixedTimeStep⌉.toNat maxSubSteps] }

/-- Outcome of a controller operation that may dereference the `NULL` world
pointer: `ok` carries the result, `nullDeref` marks the undefined behaviour of
`_world->...` when `_world` is `NULL`.  The code contains no precondition
check, so no third "precondition violation" outcome ever arises. -/
inductive Outcome (α : Type) where
  | ok (val : α)
  | nullDeref

/-- State of one `PhysicsController` instance: the stored gravity and the six
owning references/registries of the class. -/
structure PhysicsController where
  gravity : Vector3
  collisionConfiguration : Option Unit
  dispatcher : Option Unit
  overlappingPairCache : Option Unit
  solver : Option Unit
  world : Option DynamicsWorld
  shapes : List CollisionShape
  constraints : List PhysicsConstraint

/-- Model of the `PhysicsController` constructor: gravity defaults to 9.8 along
the negative Y axis, all five owning pointers start `NULL`, the registries are
empty. -/
def PhysicsController.new : PhysicsController where
  gravity := ⟨0, -(49 / 5), 0⟩
  collisionConfiguration := none
  dispatcher := none
  overlappingPairCache := none
  solver := none
  world := none
  shapes := []
  constraints := []

/-- Model of `PhysicsController::setGravity`: copies the three components into
`_gravity`, then, if `_world` is live, propagates `_gravity` to the world. -/
def PhysicsController.setGravity (st : PhysicsController) (gravity : Vector3) :
    PhysicsController :=
  let st' := { st with gravity := ⟨gravity.x, gravity.y, gravity.z⟩ }
  match st'.world with
  | some w => { st' with world := some (w.setGravity st'.gravity) }
  | none => st'

/-- Model of `PhysicsController::initialize`: constructs the collision
configuration, dispatcher, broadphase pair cache and solver, creates the world
from the four, and applies the stored `_gravity` to it.  (`initialize` is a
Lean keyword, hence the shortened name.) -/
def PhysicsController.init (st : PhysicsController) : PhysicsController :=
  let st' := { st with
    collisionConfiguration := some ()
    dispatcher := some ()
    overlappingPairCache := some ()
    solver := some () }
  let w : DynamicsWorld :=
    { gravity := ⟨0, 0, 0⟩, constraints := [], collisionObjects := [], time := 0
      stepCounts := [] }
  { st' with world := some (w.setGravity st'.gravity) }

/-- Model of `PhysicsController::addConstraint`: `_world->addConstraint` on the
native constraint, then push the wrapper onto `_constraints`.  Dereferences
`_world` without any check. -/
def PhysicsController.addConstraint (st : PhysicsController) (c : PhysicsConstraint) :
    Outcome PhysicsController :=
  match st.world with
  | none => .nullDeref
  | some w =>
      .ok { st with
        world := some (w.addConstraint c.constraint)
        constraints := st.constraints ++ [c] }

/-- Model of `PhysicsController::createFixedConstraint`: construct the wrapper,
register it via `addConstraint`, return it. -/
def PhysicsController.createFixedConstraint (st : PhysicsController) (a : PhysicsRigidBody)
    (rotationOffsetA : Quaternion) (translationOffsetA : Vector3) (b : PhysicsRigidBody)
    (rotationOffsetB : Quaternion) (translationOffsetB : Vector3) :
    Outcome (PhysicsController × PhysicsConstraint) :=
  let c := PhysicsFixedConstraint a rotationOffsetA translationOffsetA b rotationOffsetB
    translationOffsetB
  match st.addConstraint c with
  | .ok st' => .ok (st', c)
  | .nullDeref => .nullDeref

/-- Model of `PhysicsController::createGenericConstraint`. -/
def PhysicsController.createGenericConstraint (st : PhysicsController) (a : PhysicsRigidBody)
    (rotationOffsetA : Quaternion) (translationOffsetA : Vector3) (b : PhysicsRigidBody)
    (rotationOffsetB : Quaternion) (translationOffsetB : Vector3) :
    Outcome (PhysicsController × PhysicsConstraint) :=
  let c := PhysicsGenericConstraint a rotationOffsetA translationOffsetA b rotationOffsetB
    translationOffsetB
  match st.addConstraint c with
  | .ok st' => .ok (st', c)
  | .nullDeref => .nullDeref

/-- Model of `PhysicsController::createHingeConstraint`. -/
def PhysicsController.createHingeConstraint (st : PhysicsController) (a : PhysicsRigidBody)
    (rotationOffsetA : Quaternion) (translationOffsetA : Vector3) (b : PhysicsRigidBody)
    (rotationOffsetB : Quaternion) (translationOffsetB : Vector3) :
    Outcome (PhysicsController × PhysicsConstraint) :=
  let c := PhysicsHingeConstraint a rotationOffsetA translationOffsetA b rotationOffsetB
    translationOffsetB
  match st.addConstraint c with
  | .ok st' => .ok (st', c)
  | .nullDeref => .nullDeref

/-- Model of `PhysicsController::createSocketConstraint` (no rotation offsets). -/
def PhysicsController.createSocketConstraint (st : PhysicsController) (a : PhysicsRigidBody)
    (translationOffsetA : Vector3) (b : PhysicsRigidBody) (translationOffsetB : Vector3) :
    Outcome (PhysicsController × PhysicsConstraint) :=
  let c := PhysicsSocketConstraint a translationOffsetA b translationOffsetB
  match st.addConstraint c with
  | .ok st' => .ok (st', c)
  | .nullDeref => .nullDeref

/-- Model of `PhysicsController::createSpringConstraint`. -/
def PhysicsController.createSpringConstraint (st : PhysicsController) (a : PhysicsRigidBody)
    (rotationOffsetA : Quaternion) (translationOffsetA : Vector3) (b : PhysicsRigidBody)
    (rotationOffsetB : Quaternion) (translationOffsetB : Vector3) :
    Outcome (PhysicsController × PhysicsConstraint) :=
  let c := PhysicsSpringConstraint a rotationOffsetA translationOffsetA b rotationOffsetB
    translationOffsetB
  match st.addConstraint c with
  | .ok st' => .ok (st', c)
  | .nullDeref => .nullDeref

/-- Model of `PhysicsController::update`: `_world->stepSimulation` with the
elapsed milliseconds times 0.001 as seconds and a cap of 10 sub-steps.
Dereferences `_world` without any check. -/
def PhysicsController.update (st : PhysicsController) (elapsedTime : ℤ) :
    Outcome PhysicsController :=
  match st.world with
  | none => .nullDeref
  | some w => .ok { st with world := some (w.stepSimulation ((elapsedTime : ℚ) * 0.001) 10) }

/-- Model of `PhysicsController::getBox`: half-extents from scale, 0.5 and the
absolute bound differences per axis; the box is pushed onto `_shapes` and
returned. -/
def PhysicsController.getBox (st : PhysicsController) (min max : Vector3) (scale : Vector3) :
    PhysicsController × Option CollisionShape :=
  let halfExtents : Vector3 :=
    ⟨scale.x * 0.5 * |max.x - min.x|, scale.y * 0.5 * |max.y - min.y|,
      scale.z * 0.5 * |max.z - min.z|⟩
  let box := CollisionShape.box halfExtents
  ({ st with shapes := st.shapes ++ [box] }, some box)

/-- Model of `PhysicsController::getSphere`: the largest scale dimension is
found by two chained comparisons, the sphere radius is that uniform scale times
the given radius; the sphere is pushed onto `_shapes` and returned. -/
def PhysicsController.getSphere (st : PhysicsController) (radius : ℚ) (scale : Vector3) :
    PhysicsController × Option CollisionShape :=
  let uniformScale := scale.x
  let uniformScale := if uniformScale < scale.y then scale.y else uniformScale
  let uniformScale := if uniformScale < scale.z then scale.z else uniformScale
  let sphere := CollisionShape.sphere (uniformScale * radius)
  ({ st with shapes := st.shapes ++ [sphere] }, some sphere)

/-- Model of `PhysicsController::getTriangleMesh`: unimplemented, returns
`NULL` and touches nothing.  The ignored arguments model the vertex data,
vertex position stride, index data and index format. -/
def PhysicsController.getTriangleMesh (st : PhysicsController) (vertexData : List ℚ)
    (vertexPositionStride : ℤ) (indexData : List ℕ) (indexFormat : ℕ) :
    PhysicsController × Option CollisionShape :=
  (st, none)

/-- Model of `PhysicsController::getHeightfield`: unimplemented, returns `NULL`
and touches nothing. -/
def PhysicsController.getHeightfield (st : PhysicsController) (data : List ℚ) (width : ℤ)
    (height : ℤ) : PhysicsController × Option CollisionShape :=
  (st, none)

/-- One entry of the instrumented destruction-order log produced by `finalize`. -/
inductive FinalizeEvent where
  | removedConstraint (c : TypedConstraint)
  | destroyedConstraint (c : TypedConstraint)
  | destroyedWrapper (c : PhysicsConstraint)
  | destroyedMotionState (o : CollisionObject)
  | removedCollisionObject (o : CollisionObject)
  | destroyedCollisionObject (o : CollisionObject)
  | destroyedShape (s : CollisionShape)
  | destroyedWorld
  | destroyedSolver
  | destroyedBroadphase
  | destroyedDispatcher
  | destroyedCollisionConfiguration

/-- The first `finalize()` loop: `for i = getNumConstraints() - 1; i >= 0; i--`
with `removeConstraint` then `delete` on the constraint at index `i`.  Each
iteration removes the current last entry of the array, so the loop is recursion
over the reversed constraint array. -/
def constraintTeardown : List TypedConstraint → List FinalizeEvent
  | [] => []
  | c :: rest => .removedConstraint c :: .destroyedConstraint c :: constraintTeardown rest

/-- The second `finalize()` loop: `delete _constraints[i]` for `i` ascending;
the vector itself is not cleared. -/
def wrapperTeardown : List PhysicsConstraint → List FinalizeEvent
  | [] => []
  | c :: rest => .destroyedWrapper c :: wrapperTeardown rest

/-- The third `finalize()` loop, over collision objects from last to first:
delete the motion state of a rigid body that has one, remove the object from
the world, delete the object.  Recursion over the reversed object array. -/
def collisionObjectTeardown : List CollisionObject → List FinalizeEvent
  | [] => []
  | o :: rest =>
      (if o.isRigidBody && o.hasMotionState then [FinalizeEvent.destroyedMotionState o] else [])
        ++ FinalizeEvent.removedCollisionObject o :: FinalizeEvent.destroyedCollisionObject o ::
          collisionObjectTeardown rest

/-- The fourth `finalize()` loop: delete every shape in `_shapes` in ascending
order (then the vector is cleared). -/
def shapeTeardown : List CollisionShape → List FinalizeEvent
  | [] => []
  | s :: rest => .destroyedShape s :: shapeTeardown rest

/-- Model of `PhysicsController::finalize`: the four teardown loops, then the
world and its four components are deleted in order with each owning reference
set to `NULL`.  `_shapes` is cleared; `_constraints` is not.  The first loop
dereferences `_world` without any check. -/
def PhysicsController.finalize (st : PhysicsController) :
    Outcome (PhysicsController × List FinalizeEvent) :=
  match st.world with
  | none => .nullDeref
  | some w =>
      let events :=
        constraintTeardown w.constraints.reverse ++
        wrapperTeardown st.constraints ++
        collisionObjectTeardown w.collisionObjects.reverse ++
        shapeTeardown st.shapes ++
        [.destroyedWorld, .destroyedSolver, .destroyedBroadphase, .destroyedDispatcher,
          .destroyedCollisionConfiguration]
      .ok ({ st with
        world := none
        solver := none
        overlappingPairCache := none
        dispatcher := none
        collisionConfiguration := none
        shapes := [] }, events)

/-- Projection of a log entry onto the world-constraint events of the first
`finalize()` loop: `(true, c)` for a removal, `(false, c)` for a destruction. -/
def FinalizeEvent.constraintPart : FinalizeEvent → Option (Bool × TypedConstraint)
  | .removedConstraint c => some (true, c)
  | .destroyedConstraint c => some (false, c)
  | _ => none

/-- Projection of a log entry onto the shape it destroys, if any. -/
def FinalizeEvent.shapePart : FinalizeEvent → Option CollisionShape
  | .destroyedShape s => some s
  | _ => none

/-- Projection of a log entry onto the constraint wrapper it destroys, if any. -/
def FinalizeEvent.wrapperPart : FinalizeEvent → Option PhysicsConstraint
  | .destroyedWrapper c => some c
  | _ => none

/-- Projection of a log entry onto the native constraint it destroys, if any. -/
def FinalizeEvent.nativePart : FinalizeEvent → Option TypedConstraint
  | .destroyedConstraint c => some c
  | _ => none

/-- An identity quaternion, used as a sample rotation offset. -/
def qId : Quaternion := ⟨0, 0, 0, 1⟩

/-- The zero vector, used as a sample translation offset. -/
def vZero : Vector3 := ⟨0, 0, 0⟩

/-- A sample constraint wrapper between bodies `n` and `n + 1`. -/
def sampleConstraint (n : ℕ) : PhysicsConstraint :=
  PhysicsFixedConstraint ⟨n⟩ qId vZero ⟨n + 1⟩ qId vZero

/-- A controller that was initialized and then had one constraint registered. -/
def oneConstraintState : PhysicsController :=
  match (PhysicsController.new.init).addConstraint (sampleConstraint 0) with
  | .ok st => st
  | .nullDeref => PhysicsController.new

/-- A controller that was initialized and then finalized. -/
def finalizedState : PhysicsController :=
  match (PhysicsController.new.init).finalize with
  | .ok pr => pr.1
  | .nullDeref => PhysicsController.new

/-- C3: the claim says shape-creation, constraint-creation and update
operations called before `initialize()` or after `finalize()` fail fast with a
precondition violation instead of accessing the absent World.  The code has no
such check: `update`, `addConstraint` and the constraint-creation operations
dereference the `NULL` `_world` pointer, both on a freshly-constructed
controller and after `finalize()`. -/
theorem lifecycle_misuse_dereferences_null_world :
    PhysicsController.new.update 16 = .nullDeref ∧
    PhysicsController.new.addConstraint (sampleConstraint 0) = .nullDeref ∧
    PhysicsController.new.createFixedConstraint ⟨0⟩ qId vZero ⟨1⟩ qId vZero = .nullDeref ∧
    finalizedState.update 16 = .nullDeref ∧
    finalizedState.addConstraint (sampleConstraint 0) = .nullDeref ∧
    finalizedState.createSocketConstraint ⟨0⟩ vZero ⟨1⟩ vZero = .nullDeref :=
  ⟨rfl, rfl, rfl, rfl, rfl, rfl⟩

/-- C5: gravity defaults to (0, -9.8, 0); `setGravity` always updates the
stored gravity and propagates it to the World exactly when one is live;
`init` (the model of `initialize()`) applies the stored gravity to the newly
created World, so gravity set before initialization is reflected in it. -/
theorem gravity_defaults_and_propagation (st : PhysicsController) (g : Vector3)
    (w : DynamicsWorld) :
    PhysicsController.new.gravity = ⟨0, -9.8, 0⟩ ∧
    (PhysicsController.setGravity { st with world := some w } g).gravity = g ∧
    (PhysicsController.setGravity { st with world := none } g).gravity = g ∧
    (∃ w', (PhysicsController.setGravity { st with world := some w } g).world = some w' ∧
      w'.gravity = g) ∧
    (PhysicsController.setGravity { st with world := none } g).world = none ∧
    (∃ w', st.init.world = some w' ∧ w'.gravity = st.gravity) ∧
    (∃ w', ((st.setGravity g).init).world = some w' ∧ w'.gravity = g) := by
  refine ⟨?_, rfl, rfl, ⟨_, rfl, rfl⟩, rfl, ⟨_, rfl, rfl⟩, ⟨_, rfl, ?_⟩⟩
  · simp only [PhysicsController.new, Vector3.mk.injEq]
    norm_num
  · cases hw : st.world <;>
      simp [PhysicsController.setGravity, PhysicsController.init, DynamicsWorld.setGravity, hw]

/-- C6: `getBox(min, max, scale)` registers and returns a box shape whose
half-extent on each axis is `scale.axis * 0.5 * |max.axis - min.axis|`; in
particular min = (0,0,0), max = (2,4,6), scale = (1,1,1) yields half-extents
(1,2,3). -/
theorem getBox_scaled_half_extents (st : PhysicsController) (mn mx scale : Vector3) :
    st.getBox mn mx scale =
      ({ st with shapes := st.shapes ++
          [CollisionShape.box ⟨scale.x * (1 / 2) * |mx.x - mn.x|,
            scale.y * (1 / 2) * |mx.y - mn.y|, scale.z * (1 / 2) * |mx.z - mn.z|⟩] },
        some (CollisionShape.box ⟨scale.x * (1 / 2) * |mx.x - mn.x|,
          scale.y * (1 / 2) * |mx.y - mn.y|, scale.z * (1 / 2) * |mx.z - mn.z|⟩)) ∧
    (PhysicsController.new.getBox ⟨0, 0, 0⟩ ⟨2, 4, 6⟩ ⟨1, 1, 1⟩).2 =
      some (CollisionShape.box ⟨1, 2, 3⟩) := by
  have h05 : (0.5 : ℚ) = 1 / 2 := by norm_num
  constructor
  · simp [PhysicsController.getBox, h05]
  · simp only [PhysicsController.getBox, Option.some.injEq, CollisionShape.box.injEq,
      Vector3.mk.injEq]
    norm_num

/-- C7: `getSphere(radius, scale)` registers and returns a sphere shape whose
radius is the maximum of the three scale components times the given radius; in
particular radius = 1, scale = (1,2,3) yields radius 3. -/
theorem getSphere_max_scale_radius (st : PhysicsController) (radius : ℚ) (scale : Vector3) :
    st.getSphere radius scale =
      ({ st with shapes := st.shapes ++
          [CollisionShape.sphere (max scale.x (max scale.y scale.z) * radius)] },
        some (CollisionShape.sphere (max scale.x (max scale.y scale.z) * radius))) ∧
    (PhysicsController.new.getSphere 1 ⟨1, 2, 3⟩).2 = some (CollisionShape.sphere 3) := by
  have hmax : ∀ a b : ℚ, (if a < b then b else a) = max a b := by
    intro a b
    by_cases hab : a < b
    · simp [hab, max_eq_right hab.le]
    · simp [hab, max_eq_left (not_lt.mp hab)]
  constructor
  · simp only [PhysicsController.getSphere, hmax, max_assoc]
  · simp only [PhysicsController.getSphere, hmax, max_assoc, Option.some.injEq,
      CollisionShape.sphere.injEq]
    rw [max_eq_right (by norm_num : (2 : ℚ) ≤ 3), max_eq_right (by norm_num : (1 : ℚ) ≤ 3),
      mul_one]

/-- C9: `getTriangleMesh` and `getHeightfield` return a null shape for every
input and leave the controller state completely unchanged. -/
theorem unsupported_shape_kinds_return_null (st : PhysicsController) (vertexData : List ℚ)
    (vertexPositionStride : ℤ) (indexData : List ℕ) (indexFormat : ℕ) (data : List ℚ)
    (width height : ℤ) :
    st.getTriangleMesh vertexData vertexPositionStride indexData indexFormat = (st, none) ∧
    st.getHeightfield data width height = (st, none) :=
  ⟨rfl, rfl⟩

/-- Unfolding equation for `finalize` on a live world: the four teardown loops
in order, then the world and its components, with the stated final state. -/
theorem finalize_eq (st : PhysicsController) (w : DynamicsWorld) :
    ({ st with world := some w } : PhysicsController).finalize =
      .ok ({ st with
          world := none
          solver := none
          overlappingPairCache := none
          dispatcher := none
          collisionConfiguration := none
          shapes := [] },
        constraintTeardown w.constraints.reverse ++ wrapperTeardown st.constraints ++
        collisionObjectTeardown w.collisionObjects.reverse ++ shapeTeardown st.shapes ++
        [.destroyedWorld, .destroyedSolver, .destroyedBroadphase, .destroyedDispatcher,
          .destroyedCollisionConfiguration]) :=
  rfl

theorem constraintPart_constraintTeardown (cs : List TypedConstraint) :
    (constraintTeardown cs).filterMap FinalizeEvent.constraintPart =
      cs.flatMap fun c => [(true, c), (false, c)] := by
  induction cs with
  | nil => rfl
  | cons c rest ih =>
      simp [constraintTeardown, FinalizeEvent.constraintPart, ih]

theorem constraintPart_wrapperTeardown (cs : List PhysicsConstraint) :
    (wrapperTeardown cs).filterMap FinalizeEvent.constraintPart = [] := by
  induction cs with
  | nil => rfl
  | cons c rest ih => simp [wrapperTeardown, FinalizeEvent.constraintPart, ih]

theorem constraintPart_collisionObjectTeardown (os : List CollisionObject) :
    (collisionObjectTeardown os).filterMap FinalizeEvent.constraintPart = [] := by
  induction os with
  | nil => rfl
  | cons o rest ih =>
      cases hb : o.isRigidBody && o.hasMotionState <;>
        simp [collisionObjectTeardown, hb, FinalizeEvent.constraintPart, ih]

theorem constraintPart_shapeTeardown (ss : List CollisionShape) :
    (shapeTeardown ss).filterMap FinalizeEvent.constraintPart = [] := by
  induction ss with
  | nil => rfl
  | cons s rest ih => simp [shapeTeardown, FinalizeEvent.constraintPart, ih]

theorem shapePart_constraintTeardown (cs : List TypedConstraint) :
    (constraintTeardown cs).filterMap FinalizeEvent.shapePart = [] := by
  induction cs with
  | nil => rfl
  | cons c rest ih => simp [constraintTeardown, FinalizeEvent.shapePart, ih]

theorem shapePart_wrapperTeardown (cs : List PhysicsConstraint) :
    (wrapperTeardown cs).filterMap FinalizeEvent.shapePart = [] := by
  induction cs with
  | nil => rfl
  | cons c rest ih => simp [wrapperTeardown, FinalizeEvent.shapePart, ih]

theorem shapePart_collisionObjectTeardown (os : List CollisionObject) :
    (collisionObjectTeardown os).filterMap FinalizeEvent.shapePart = [] := by
  induction os with
  | nil => rfl
  | cons o rest ih =>
      cases hb : o.isRigidBody && o.hasMotionState <;>
        simp [collisionObjectTeardown, hb, FinalizeEvent.shapePart, ih]

theorem shapePart_shapeTeardown (ss : List CollisionShape) :
    (shapeTeardown ss).filterMap FinalizeEvent.shapePart = ss := by
  induction ss with
  | nil => rfl
  | cons s rest ih => simp [shapeTeardown, FinalizeEvent.shapePart, ih]

theorem wrapperPart_constraintTeardown (cs : List TypedConstraint) :
    (constraintTeardown cs).filterMap FinalizeEvent.wrapperPart = [] := by
  induction cs with
  | nil => rfl
  | cons c rest ih => simp [constraintTeardown, FinalizeEvent.wrapperPart, ih]

theorem wrapperPart_wrapperTeardown (cs : List PhysicsConstraint) :
    (wrapperTeardown cs).filterMap FinalizeEvent.wrapperPart = cs := by
  induction cs with
  | nil => rfl
  | cons c rest ih => simp [wrapperTeardown, FinalizeEvent.wrapperPart, ih]

theorem wrapperPart_collisionObjectTeardown (os : List CollisionObject) :
    (collisionObjectTeardown os).filterMap FinalizeEvent.wrapperPart = [] := by
  induction os with
  | nil => rfl
  | cons o rest ih =>
      cases hb : o.isRigidBody && o.hasMotionState <;>
        simp [collisionObjectTeardown, hb, FinalizeEvent.wrapperPart, ih]

theorem wrapperPart_shapeTeardown (ss : List CollisionShape) :
    (shapeTeardown ss).filterMap FinalizeEvent.wrapperPart = [] := by
  induction ss with
  | nil => rfl
  | cons s rest ih => simp [shapeTeardown, FinalizeEvent.wrapperPart, ih]

theorem nativePart_constraintTeardown (cs : List TypedConstraint) :
    (constraintTeardown cs).filterMap FinalizeEvent.nativePart = cs := by
  induction cs with
  | nil => rfl
  | cons c rest ih => simp [constraintTeardown, FinalizeEvent.nativePart, ih]

theorem nativePart_wrapperTeardown (cs : List PhysicsConstraint) :
    (wrapperTeardown cs).filterMap FinalizeEvent.nativePart = [] := by
  induction cs with
  | nil => rfl
  | cons c rest ih => simp [wrapperTeardown, FinalizeEvent.nativePart, ih]

theorem nativePart_collisionObjectTeardown (os : List CollisionObject) :
    (collisionObjectTeardown os).filterMap FinalizeEvent.nativePart = [] := by
  induction os with
  | nil => rfl
  | cons o rest ih =>
      cases hb : o.isRigidBody && o.hasMotionState <;>
        simp [collisionObjectTeardown, hb, FinalizeEvent.nativePart, ih]

theorem nativePart_shapeTeardown (ss : List CollisionShape) :
    (shapeTeardown ss).filterMap FinalizeEvent.nativePart = [] := by
  induction ss with
  | nil => rfl
  | cons s rest ih => simp [shapeTeardown, FinalizeEvent.nativePart, ih]

/-- C1: finalize tears the World's constraints down in exact reverse
registration order: restricted to world-constraint events, the destruction log
is, for each registered constraint from last-added to first-added, a removal
from the World immediately followed by the destruction of its native
representation. -/
theorem finalize_tears_down_constraints_last_to_first (st : PhysicsController)
    (w : DynamicsWorld) :
    ∃ st' events, ({ st with world := some w } : PhysicsController).finalize =
        .ok (st', events) ∧
      events.filterMap FinalizeEvent.constraintPart =
        w.constraints.reverse.flatMap fun c => [(true, c), (false, c)] := by
  refine ⟨_, _, finalize_eq st w, ?_⟩
  simp [List.filterMap_append, constraintPart_constraintTeardown, constraintPart_wrapperTeardown,
    constraintPart_collisionObjectTeardown, constraintPart_shapeTeardown,
    FinalizeEvent.constraintPart]

/-- C2 (amended): finalize destroys every registered native constraint (in
reverse order), every constraint wrapper and every registered shape, clears the
shape registry, and nulls the World, solver, broadphase cache, dispatcher and
collision-configuration references, destroying them in that order at the end of
the log; the constraint registry, however, is NOT cleared — it retains its
(now dangling) entries. -/
theorem finalize_destroys_all_and_nulls_references (st : PhysicsController)
    (w : DynamicsWorld) :
    ∃ st' events, ({ st with world := some w } : PhysicsController).finalize =
        .ok (st', events) ∧
      st'.world = none ∧ st'.solver = none ∧ st'.overlappingPairCache = none ∧
      st'.dispatcher = none ∧ st'.collisionConfiguration = none ∧
      st'.shapes = [] ∧ st'.constraints = st.constraints ∧
      events.filterMap FinalizeEvent.nativePart = w.constraints.reverse ∧
      events.filterMap FinalizeEvent.wrapperPart = st.constraints ∧
      events.filterMap FinalizeEvent.shapePart = st.shapes ∧
      ∃ p, events = p ++ [FinalizeEvent.destroyedWorld, FinalizeEvent.destroyedSolver,
        FinalizeEvent.destroyedBroadphase, FinalizeEvent.destroyedDispatcher,
        FinalizeEvent.destroyedCollisionConfiguration] := by
  refine ⟨_, _, finalize_eq st w, rfl, rfl, rfl, rfl, rfl, rfl, rfl, ?_, ?_, ?_, ?_⟩
  · simp [List.filterMap_append, nativePart_constraintTeardown, nativePart_wrapperTeardown,
      nativePart_collisionObjectTeardown, nativePart_shapeTeardown, FinalizeEvent.nativePart]
  · simp [List.filterMap_append, wrapperPart_constraintTeardown, wrapperPart_wrapperTeardown,
      wrapperPart_collisionObjectTeardown, wrapperPart_shapeTeardown, FinalizeEvent.wrapperPart]
  · simp [List.filterMap_append, shapePart_constraintTeardown, shapePart_wrapperTeardown,
      shapePart_collisionObjectTeardown, shapePart_shapeTeardown, FinalizeEvent.shapePart]
  · exact ⟨constraintTeardown w.constraints.reverse ++ (wrapperTeardown st.constraints ++
      (collisionObjectTeardown w.collisionObjects.reverse ++ shapeTeardown st.shapes)),
      by simp [List.append_assoc]⟩

/-- C2 (counterexample to the claim as stated): after initializing and
creating one constraint, finalize leaves the constraint registry non-empty —
the wrapper vector is never cleared, so the registry still has one (dangling)
entry. -/
theorem finalize_leaves_constraint_registry_populated :
    ∃ pr, oneConstraintState.finalize = Outcome.ok pr ∧
      pr.1.constraints = [sampleConstraint 0] ∧
      pr.1.constraints ≠ [] :=
  ⟨_, rfl, rfl, List.cons_ne_nil _ _⟩

/-- C4: `update(elapsedTime)` advances the World by exactly elapsedTime / 1000
seconds and performs `min ⌈elapsed seconds / fixed sub-step⌉ 10` sub-steps —
never more than 10 — and, being a total function, always terminates. -/
theorem update_advances_world_with_substep_cap (st : PhysicsController)
    (w : DynamicsWorld) (elapsedTime : ℤ) :
    ∃ w', ({ st with world := some w } : PhysicsController).update elapsedTime =
        .ok { st with world := some w' } ∧
      w'.time = w.time + (elapsedTime : ℚ) / 1000 ∧
      ∃ n, w'.stepCounts = w.stepCounts ++ [n] ∧ n ≤ 10 ∧
        n = min ⌈((elapsedTime : ℚ) / 1000) / fixedTimeStep⌉.toNat 10 := by
  have ht : (elapsedTime : ℚ) * 0.001 = (elapsedTime : ℚ) / 1000 := by
    rw [show (0.001 : ℚ) = 1 / 1000 from by norm_num, mul_one_div]
  refine ⟨_, rfl, ?_, ?_⟩
  · simp [DynamicsWorld.stepSimulation, ht]
  · refine ⟨_, rfl, min_le_right _ _, ?_⟩
    simp [DynamicsWorld.stepSimulation, ht]

/-- C10: `update` leaves the stored gravity, the shape registry, the constraint
registry and the four component references unchanged; on the World it changes
only the simulation advance (gravity, constraints and collision objects of the
World are untouched). -/
theorem update_preserves_controller_state (st : PhysicsController) (w : DynamicsWorld)
    (elapsedTime : ℤ) :
    ∃ st', ({ st with world := some w } : PhysicsController).update elapsedTime = .ok st' ∧
      st'.gravity = st.gravity ∧ st'.shapes = st.shapes ∧ st'.constraints = st.constraints ∧
      st'.collisionConfiguration = st.collisionConfiguration ∧
      st'.dispatcher = st.dispatcher ∧
      st'.overlappingPairCache = st.overlappingPairCache ∧ st'.solver = st.solver ∧
      ∃ w', st'.world = some w' ∧ w'.gravity = w.gravity ∧
        w'.constraints = w.constraints ∧ w'.collisionObjects = w.collisionObjects :=
  ⟨_, rfl, rfl, rfl, rfl, rfl, rfl, rfl, rfl, _, rfl, rfl, rfl, rfl⟩

/-- C8: each of the five constraint-creation operations builds the typed
constraint from the two bodies and their per-side offset transforms, attaches
its native representation to the World's constraint array, appends the wrapper
to the controller's tracked constraint list, and returns the wrapper. -/
theorem create_constraints_shared_registration (st : PhysicsController) (w : DynamicsWorld)
    (a b : PhysicsRigidBody) (rotA rotB : Quaternion) (transA transB : Vector3) :
    (∃ c, c = PhysicsFixedConstraint a rotA transA b rotB transB ∧
      ({ st with world := some w } : PhysicsController).createFixedConstraint
          a rotA transA b rotB transB =
        .ok ({ st with
          world := some { w with constraints := w.constraints ++ [c.constraint] }
          constraints := st.constraints ++ [c] }, c)) ∧
    (∃ c, c = PhysicsGenericConstraint a rotA transA b rotB transB ∧
      ({ st with world := some w } : PhysicsController).createGenericConstraint
          a rotA transA b rotB transB =
        .ok ({ st with
          world := some { w with constraints := w.constraints ++ [c.constraint] }
          constraints := st.constraints ++ [c] }, c)) ∧
    (∃ c, c = PhysicsHingeConstraint a rotA transA b rotB transB ∧
      ({ st with world := some w } : PhysicsController).createHingeConstraint
          a rotA transA b rotB transB =
        .ok ({ st with
          world := some { w with constraints := w.constraints ++ [c.constraint] }
          constraints := st.constraints ++ [c] }, c)) ∧
    (∃ c, c = PhysicsSocketConstraint a transA b transB ∧
      ({ st with world := some w } : PhysicsController).createSocketConstraint
          a transA b transB =
        .ok ({ st with
          world := some { w with constraints := w.constraints ++ [c.constraint] }
          constraints := st.constraints ++ [c] }, c)) ∧
    (∃ c, c = PhysicsSpringConstraint a rotA transA b rotB transB ∧
      ({ st with world := some w } : PhysicsController).createSpringConstraint
          a rotA transA b rotB transB =
        .ok ({ st with
          world := some { w with constraints := w.constraints ++ [c.constraint] }
          constraints := st.constraints ++ [c] }, c)) :=
  ⟨⟨_, rfl, rfl⟩, ⟨_, rfl, rfl⟩, ⟨_, rfl, rfl⟩, ⟨_, rfl, rfl⟩, ⟨_, rfl, rfl⟩⟩

end Gameplay
